import Mathlib

/-!
Shallow embedding of `src/portfolio/src/app/page.tsx` (the single source file
of the portfolio repository) and proofs about its capability-gated animated
scene controller.  Numeric values are modelled with exact rationals; the
JavaScript exception mechanism is modelled with `Except Unit`.
-/

namespace Portfolio

/-! ## Constants from the source file -/

/-- Source constant `ORBIT_RADIUS = 2.1`. -/
def ORBIT_RADIUS : ℚ := 21 / 10

/-- Per-frame spin increment factor of the Planet mesh: `delta * 0.1`
(`planetRef.current.rotation.y += delta * 0.1`). -/
def PLANET_SPIN_FACTOR : ℚ := 1 / 10

/-- Per-frame orbit increment factor of the MoonOrbit group: `delta * 0.4`
(`group.current.rotation.y += delta * 0.4`). -/
def MOON_ORBIT_FACTOR : ℚ := 4 / 10

/-! ## Per-frame callbacks (the two `useFrame` bodies)

Each animated component holds a ref that may be null before the underlying
object is attached.  The callback body guards on the ref
(`if (planetRef.current) { ... }`); a null dereference would be a thrown
`TypeError`, so the callback result is wrapped in `Except Unit` to record
whether an exception escapes. -/

/-- Embedding of the `useFrame` body of `Planet`: given the frame delta and
the current value of `planetRef.current` (represented by the rotation.y it
carries, or `none` when the ref is null), return the new ref content.  The
source guards with `if (planetRef.current)`, so the null case performs no
mutation and cannot dereference null. -/
def planetUseFrame (delta : ℚ) (current : Option ℚ) : Except Unit (Option ℚ) :=
  match current with
  | none => Except.ok none
  | some rotY => Except.ok (some (rotY + delta * PLANET_SPIN_FACTOR))

/-- Embedding of the `useFrame` body of `MoonOrbit`: same shape as
`planetUseFrame`, guarded by `if (group.current)`, advancing rotation.y by
`delta * 0.4`. -/
def moonOrbitUseFrame (delta : ℚ) (current : Option ℚ) : Except Unit (Option ℚ) :=
  match current with
  | none => Except.ok none
  | some rotY => Except.ok (some (rotY + delta * MOON_ORBIT_FACTOR))

/-! ## Mounted scene state and the combined frame tick -/

/-- State of the mounted scene that per-frame callbacks can reach: the
Planet mesh rotation.y, the MoonOrbit group rotation.y, and the position
prop of the moon child mesh (`position=[2.1, 0, 0]` inside the group). -/
structure SceneState where
  planetRotY : ℚ
  moonGroupRotY : ℚ
  moonMeshPos : ℚ × ℚ × ℚ
  deriving DecidableEq

/-- Scene state at mount: the Planet mesh has no rotation prop (rotation.y
starts at 0), the MoonOrbit group has `rotation=[0.25, 0.2, 0]` (rotation.y
starts at 0.2), and the moon child mesh sits at `[ORBIT_RADIUS, 0, 0]`. -/
def initialSceneState : SceneState :=
  { planetRotY := 0
    moonGroupRotY := 1 / 5
    moonMeshPos := (ORBIT_RADIUS, 0, 0) }

/-- One frame tick while the scene is mounted (both refs attached): the
Planet callback adds `delta * 0.1` to the mesh rotation.y and the MoonOrbit
callback adds `delta * 0.4` to the group rotation.y; nothing else in the
scene is mutated. -/
def frameTick (delta : ℚ) (s : SceneState) : SceneState :=
  { s with
    planetRotY := s.planetRotY + delta * PLANET_SPIN_FACTOR
    moonGroupRotY := s.moonGroupRotY + delta * MOON_ORBIT_FACTOR }

/-- Scene state after a sequence of frame ticks with the given deltas,
starting from the mount state. -/
def sceneAfter (deltas : List ℚ) : SceneState :=
  deltas.foldl (fun s d => frameTick d s) initialSceneState

/-- Spin angle accumulated by the Planet over the tick sequence
(rotation.y after the ticks minus rotation.y at mount). -/
def planetSpinAccum (deltas : List ℚ) : ℚ :=
  (sceneAfter deltas).planetRotY - initialSceneState.planetRotY

/-- Orbit angle accumulated by the MoonOrbit group over the tick sequence
(group rotation.y after the ticks minus group rotation.y at mount). -/
def moonOrbitAccum (deltas : List ℚ) : ℚ :=
  (sceneAfter deltas).moonGroupRotY - initialSceneState.moonGroupRotY

/-- The three scene objects of the composed scene graph. -/
inductive SceneObj where
  | planet
  | orbitRing
  | moonOrbit
  deriving DecidableEq

/-- Registration of `useFrame` callbacks per scene object, read off the
component bodies in the source: `Planet` and `MoonOrbit` each call
`useFrame` once; `OrbitRing` contains no call to `useFrame`. -/
def registersFrameCallback : SceneObj → Bool
  | SceneObj.planet => true
  | SceneObj.orbitRing => false
  | SceneObj.moonOrbit => true

/-! ## The WebGL capability probe (`useHasWebGL`)

The probing environment is modelled by the observable behaviour of the
browser APIs the effect body touches: whether `document.createElement`
throws, whether `window` is defined, the truthiness of
`window.WebGLRenderingContext`, and what `canvas.getContext(name)` does for
each context name (throw, or return a context object / null). -/

structure BrowserEnv where
  /-- Behaviour of `document.createElement("canvas")`: `Except.error` when it
  throws, `Except.ok` when it yields a canvas. -/
  createCanvas : Except Unit Unit
  /-- Whether `typeof window !== "undefined"` holds. -/
  windowDefined : Bool
  /-- Truthiness of `window.WebGLRenderingContext` (false when the
  constructor is absent from the environment). -/
  hasWebGLRenderingContext : Bool
  /-- Behaviour of `canvas.getContext(name)`: `Except.error` when it throws,
  otherwise the returned context (`none` for a null return). -/
  getContext : String → Except Unit (Option Unit)

/-- Embedding of the body of the `try` block inside the `useHasWebGL` effect:
create a canvas, then evaluate
`typeof window !== "undefined" && !!(window.WebGLRenderingContext &&
(canvas.getContext("webgl") || canvas.getContext("experimental-webgl")))`,
with JavaScript short-circuit order preserved.  An `Except.error` result
means an exception escaped the try block. -/
def probeAttempt (env : BrowserEnv) : Except Unit Bool :=
  match env.createCanvas with
  | Except.error e => Except.error e
  | Except.ok _ =>
    if env.windowDefined && env.hasWebGLRenderingContext then
      match env.getContext "webgl" with
      | Except.error e => Except.error e
      | Except.ok (some _) => Except.ok true
      | Except.ok none =>
        match env.getContext "experimental-webgl" with
        | Except.error e => Except.error e
        | Except.ok (some _) => Except.ok true
        | Except.ok none => Except.ok false
    else Except.ok false

/-- Embedding of the whole `useHasWebGL` effect body: the `try`/`catch`
around `probeAttempt`, where the `catch` branch sets the result to `false`.
This is the boolean the hook state is set to once the effect has run. -/
def useHasWebGLProbe (env : BrowserEnv) : Bool :=
  match probeAttempt env with
  | Except.ok b => b
  | Except.error _ => false

/-- Whether the environment exposes the WebGL rendering-context constructor:
`window` must be defined and `window.WebGLRenderingContext` truthy. -/
def exposesWebGLConstructor (env : BrowserEnv) : Bool :=
  env.windowDefined && env.hasWebGLRenderingContext

/-! ## The hook state across render passes

`useHasWebGL` starts from `React.useState(true)` and the effect (with an
empty dependency array) runs once after the first render pass, setting the
state to the probe result; every later pass reads that stored value. -/

/-- Value returned by `useHasWebGL` at each render pass: pass 0 is the
initial `useState(true)` value; every pass after the effect has run returns
the probe result. -/
def hasWebGLState (env : BrowserEnv) : ℕ → Bool
  | 0 => true
  | _ + 1 => useHasWebGLProbe env

/-- Dependency array of the `useHasWebGL` effect at each render pass: the
source passes the literal `[]`, so it is empty at every pass. -/
def effectDepsAt (_renderPass : ℕ) : List Unit := []

/-- React effect scheduling: the effect body runs after the first render
pass, and after a later pass exactly when its dependency array differs from
the previous pass. -/
def effectRunsAfterRender : ℕ → Bool
  | 0 => true
  | n + 1 => decide (effectDepsAt (n + 1) ≠ effectDepsAt n)

/-- Number of times the probe effect has executed once `n` render passes
have completed. -/
def probeRunCount (n : ℕ) : ℕ :=
  ((List.range n).filter effectRunsAfterRender).length

/-! ## Hero section branching -/

/-- The two mutually exclusive children the hero section can mount in the
conditional `hasWebGL ? <Canvas ...> : <FallbackNoWebGL/>`. -/
inductive HeroContent where
  | sceneCanvas
  | fallbackView
  deriving DecidableEq

/-- Embedding of the conditional render inside `Hero3D`: the Canvas scene
when `hasWebGL` is true, the fallback view otherwise. -/
def hero3DContent (hasWebGL : Bool) : HeroContent :=
  if hasWebGL then HeroContent.sceneCanvas else HeroContent.fallbackView

/-! ## Lights -/

/-- Kinds of light elements appearing in the `Lights` component. -/
inductive LightKind where
  | ambient
  | directional
  | point
  deriving DecidableEq

/-- One light element of the scene, with the props set in the source. -/
structure LightElem where
  kind : LightKind
  intensity : ℚ
  position : Option (ℚ × ℚ × ℚ)
  castShadow : Bool
  shadowMapSize : Option (ℕ × ℕ)
  deriving DecidableEq

/-- The children of the `Lights` component, in source order:
`<ambientLight intensity={0.35}/>`,
`<directionalLight position={[3,2,4]} intensity={1.1} castShadow
shadow-mapSize-width={1024} shadow-mapSize-height={1024}/>`,
`<pointLight position={[-4,-2,-3]} intensity={0.6}/>`. -/
def lightsChildren : List LightElem :=
  [ { kind := LightKind.ambient
      intensity := 35 / 100
      position := none
      castShadow := false
      shadowMapSize := none },
    { kind := LightKind.directional
      intensity := 11 / 10
      position := some (3, 2, 4)
      castShadow := true
      shadowMapSize := some (1024, 1024) },
    { kind := LightKind.point
      intensity := 6 / 10
      position := some (-4, -2, -3)
      castShadow := false
      shadowMapSize := none } ]

/-! ## Scroll indicator animation (CSS cascade of the `style jsx` block) -/

/-- A CSS animation binding as it applies to the wheel element. -/
structure CssAnimation where
  keyframesName : String
  durationSeconds : ℚ
  iterationCountInfinite : Bool
  deriving DecidableEq

/-- Resolved animation of the `#wheel` element: the base rule sets
`animation: wheel 1.8s ease-in-out infinite`, and the media rule
`@media (prefers-reduced-motion: reduce)` overrides it with
`animation: none` exactly when the preference is active. -/
def wheelAnimation (prefersReducedMotion : Bool) : Option CssAnimation :=
  if prefersReducedMotion then none
  else some { keyframesName := "wheel"
              durationSeconds := 9 / 5
              iterationCountInfinite := true }

/-- Animation of the scroll-indicator wheel as rendered inside `Hero3D`:
the `ScrollIndicator` element is rendered unconditionally, outside the
`hasWebGL` conditional, so the capability outcome does not enter. -/
def scrollIndicatorWheelAnimation (_hasWebGL : Bool)
    (prefersReducedMotion : Bool) : Option CssAnimation :=
  wheelAnimation prefersReducedMotion

/-! ## Concrete probe environments used as evaluation points -/

/-- Concrete environment: nothing throws, constructor present, the primary
alias yields a context and the legacy alias yields null. -/
def envWebGLOk : BrowserEnv :=
  { createCanvas := Except.ok ()
    windowDefined := true
    hasWebGLRenderingContext := true
    getContext := fun name => Except.ok (if name = "webgl" then some () else none) }

/-- Concrete environment: the rendering-context APIs are absent entirely
(constructor deleted) and context creation returns null. -/
def envNoWebGL : BrowserEnv :=
  { createCanvas := Except.ok ()
    windowDefined := true
    hasWebGLRenderingContext := false
    getContext := fun _ => Except.ok none }

/-- Concrete environment: canvas creation itself throws. -/
def envThrowing : BrowserEnv :=
  { createCanvas := Except.error ()
    windowDefined := true
    hasWebGLRenderingContext := true
    getContext := fun _ => Except.error () }

end Portfolio

namespace Portfolio

/-! ## Helper lemmas about folded ticks -/

theorem foldl_frameTick_planet (deltas : List ℚ) (s : SceneState) :
    (deltas.foldl (fun t d => frameTick d t) s).planetRotY
      = s.planetRotY + PLANET_SPIN_FACTOR * deltas.sum := by
  induction deltas generalizing s with
  | nil => simp
  | cons d ds ih =>
      rw [List.foldl_cons, ih, List.sum_cons]
      simp only [frameTick]
      ring

theorem foldl_frameTick_moon (deltas : List ℚ) (s : SceneState) :
    (deltas.foldl (fun t d => frameTick d t) s).moonGroupRotY
      = s.moonGroupRotY + MOON_ORBIT_FACTOR * deltas.sum := by
  induction deltas generalizing s with
  | nil => simp
  | cons d ds ih =>
      rw [List.foldl_cons, ih, List.sum_cons]
      simp only [frameTick]
      ring

theorem foldl_frameTick_moonMeshPos (deltas : List ℚ) (s : SceneState) :
    (deltas.foldl (fun t d => frameTick d t) s).moonMeshPos = s.moonMeshPos := by
  induction deltas generalizing s with
  | nil => rfl
  | cons d ds ih => rw [List.foldl_cons, ih]; rfl

/-- C1: for every sequence of frame ticks with deltas d1..dn delivered while
the scene is mounted, the spin angle accumulated by the Planet equals
0.1 * (d1+...+dn), the orbit angle accumulated by the MoonOrbit group equals
0.4 * (d1+...+dn), and the accumulated orbit angle is exactly 4 times the
accumulated spin angle, for every tick sequence. -/
theorem spin_orbit_accumulation (deltas : List ℚ) :
    planetSpinAccum deltas = (1 / 10) * deltas.sum ∧
    moonOrbitAccum deltas = (4 / 10) * deltas.sum ∧
    moonOrbitAccum deltas = 4 * planetSpinAccum deltas := by
  have hp : planetSpinAccum deltas = (1 / 10) * deltas.sum := by
    unfold planetSpinAccum sceneAfter
    rw [foldl_frameTick_planet]
    unfold PLANET_SPIN_FACTOR
    ring
  have hm : moonOrbitAccum deltas = (4 / 10) * deltas.sum := by
    unfold moonOrbitAccum sceneAfter
    rw [foldl_frameTick_moon]
    unfold MOON_ORBIT_FACTOR
    ring
  refine ⟨hp, hm, ?_⟩
  rw [hp, hm]; ring

/-- C2: in an environment where probing itself does not throw, the probe
reports true exactly when the WebGL rendering-context constructor is exposed
and context creation returns non-null for at least one of the aliases
`webgl` and `experimental-webgl`; with an absent constructor or two null
contexts it reports false. -/
theorem probe_true_iff_supported (env : BrowserEnv) (c1 c2 : Option Unit)
    (hcanvas : env.createCanvas = Except.ok ())
    (h1 : env.getContext "webgl" = Except.ok c1)
    (h2 : env.getContext "experimental-webgl" = Except.ok c2) :
    useHasWebGLProbe env
      = (exposesWebGLConstructor env && (c1.isSome || c2.isSome)) := by
  unfold useHasWebGLProbe probeAttempt exposesWebGLConstructor
  rw [hcanvas]
  cases hw : env.windowDefined && env.hasWebGLRenderingContext
  · simp
  · rw [h1]
    cases c1 with
    | some u => simp
    | none =>
        rw [h2]
        cases c2 with
        | some u => simp
        | none => simp

/-- Witness for C2: in the concrete environment where the primary alias
yields a context, the probe evaluates to true, matching the formula. -/
theorem probe_true_iff_supported_witness :
    useHasWebGLProbe envWebGLOk = true ∧ useHasWebGLProbe envWebGLOk
      = (exposesWebGLConstructor envWebGLOk && (true || false)) := by
  have h := probe_true_iff_supported envWebGLOk (some ()) none rfl rfl rfl
  exact ⟨by rw [h]; rfl, by rw [h]; rfl⟩

/-- C3: probing never lets an exception propagate: the probe is a total
boolean function of the environment, any exception raised inside the try
block resolves the probe to false, and an environment with the
rendering-context constructor absent entirely also resolves to false. -/
theorem probe_never_throws (env : BrowserEnv) :
    (∀ e : Unit, probeAttempt env = Except.error e → useHasWebGLProbe env = false) ∧
    (env.hasWebGLRenderingContext = false → useHasWebGLProbe env = false) := by
  constructor
  · intro e he
    unfold useHasWebGLProbe
    rw [he]
  · intro habsent
    unfold useHasWebGLProbe probeAttempt
    rw [habsent]
    cases env.createCanvas with
    | error e => rfl
    | ok c => simp

/-- Witness for C3: in the concrete environment whose canvas creation
throws, and in the one whose constructor is absent, the probe resolves to
false. -/
theorem probe_never_throws_witness :
    useHasWebGLProbe envThrowing = false ∧ useHasWebGLProbe envNoWebGL = false :=
  ⟨(probe_never_throws envThrowing).1 () rfl,
   (probe_never_throws envNoWebGL).2 rfl⟩

/-- C4: on every render pass, the hero section mounts exactly one of the
Canvas scene and the fallback view: the scene exactly when the capability
boolean is true, the fallback exactly when it is false, never both and
never neither. -/
theorem hero_mounts_exactly_one (hasWebGL : Bool) :
    (hero3DContent hasWebGL = HeroContent.sceneCanvas
      ∨ hero3DContent hasWebGL = HeroContent.fallbackView) ∧
    (hero3DContent hasWebGL = HeroContent.sceneCanvas ↔ hasWebGL = true) ∧
    (hero3DContent hasWebGL = HeroContent.fallbackView ↔ hasWebGL = false) ∧
    HeroContent.sceneCanvas ≠ HeroContent.fallbackView := by
  cases hasWebGL <;> simp [hero3DContent]

/-- C5: the capability state starts as true, so render pass 0 (before the
effect has run) mounts the Canvas scene; when the probe determines the
environment lacks support, every later pass reads false and mounts only the
fallback view. -/
theorem initial_true_then_fallback (env : BrowserEnv) (n : ℕ)
    (hprobe : useHasWebGLProbe env = false) :
    hasWebGLState env 0 = true ∧
    hero3DContent (hasWebGLState env 0) = HeroContent.sceneCanvas ∧
    hasWebGLState env (n + 1) = false ∧
    hero3DContent (hasWebGLState env (n + 1)) = HeroContent.fallbackView := by
  refine ⟨rfl, rfl, ?_, ?_⟩
  · show useHasWebGLProbe env = false
    exact hprobe
  · show hero3DContent (useHasWebGLProbe env) = HeroContent.fallbackView
    rw [hprobe]; rfl

/-- Witness for C5: in the concrete unsupported environment the first pass
mounts the scene and pass 1 mounts the fallback. -/
theorem initial_true_then_fallback_witness :
    hasWebGLState envNoWebGL 0 = true ∧
    hero3DContent (hasWebGLState envNoWebGL 0) = HeroContent.sceneCanvas ∧
    hasWebGLState envNoWebGL 1 = false ∧
    hero3DContent (hasWebGLState envNoWebGL 1) = HeroContent.fallbackView :=
  initial_true_then_fallback envNoWebGL 0 rfl

/-- C6: a frame tick changes only the Planet mesh rotation and the
MoonOrbit group rotation: the moon child position stays at the fixed
orbit-radius offset, only `Planet` and `MoonOrbit` register per-frame
callbacks, and `OrbitRing` registers none. -/
theorem tick_mutates_only_rotations (d : ℚ) (s : SceneState) :
    (frameTick d s).moonMeshPos = s.moonMeshPos ∧
    initialSceneState.moonMeshPos = (ORBIT_RADIUS, 0, 0) ∧
    registersFrameCallback SceneObj.orbitRing = false ∧
    registersFrameCallback SceneObj.planet = true ∧
    registersFrameCallback SceneObj.moonOrbit = true ∧
    (frameTick d s).planetRotY = s.planetRotY + d * PLANET_SPIN_FACTOR ∧
    (frameTick d s).moonGroupRotY = s.moonGroupRotY + d * MOON_ORBIT_FACTOR :=
  ⟨rfl, rfl, rfl, rfl, rfl, rfl, rfl⟩

/-- C7 counterexample: the `Lights` component contains three light elements
(ambient, directional, point), so the assembled scene does not contain
exactly two light sources. -/
theorem lights_not_two :
    lightsChildren.length = 3 ∧ lightsChildren.length ≠ 2 := by
  constructor
  · rfl
  · intro h
    simp [lightsChildren] at h

/-- C7 amended: the assembled scene contains exactly three light elements:
one ambient fill light, one directional key light which is the only
shadow-casting light and has the fixed 1024 by 1024 shadow-map resolution,
and one omnidirectional point fill light with no shadow. -/
theorem lights_assembly :
    lightsChildren.length = 3 ∧
    lightsChildren.countP (fun l => decide (l.kind = LightKind.ambient)) = 1 ∧
    lightsChildren.countP (fun l => decide (l.kind = LightKind.directional)) = 1 ∧
    lightsChildren.countP (fun l => decide (l.kind = LightKind.point)) = 1 ∧
    lightsChildren.countP (fun l => l.castShadow) = 1 ∧
    (lightsChildren.filter fun l => l.castShadow).all
      (fun l => decide (l.kind = LightKind.directional
        ∧ l.shadowMapSize = some (1024, 1024))) = true ∧
    (lightsChildren.filter fun l => decide (l.kind = LightKind.point)).all
      (fun l => decide (l.castShadow = false ∧ l.shadowMapSize = none)) = true := by
  decide

/-- C8: the probe effect executes exactly once per mount (its dependency
array is empty, hence unchanged, on every re-render), and from pass 1 on the
capability state and the mounted hero content never change again: no retry
and no mid-session swap beyond the single initial correction. -/
theorem probe_one_shot (env : BrowserEnv) (m n : ℕ)
    (hm : 1 ≤ m) (hn : 1 ≤ n) :
    probeRunCount n = 1 ∧
    hasWebGLState env m = hasWebGLState env n ∧
    hero3DContent (hasWebGLState env m) = hero3DContent (hasWebGLState env n) := by
  have hrange : ∀ k : ℕ, 1 ≤ k →
      (List.range k).filter effectRunsAfterRender = [0] := by
    intro k hk
    induction k with
    | zero => omega
    | succ j ih =>
        cases Nat.eq_or_lt_of_le hk with
        | inl h1 =>
            have : j = 0 := by omega
            subst this
            rfl
        | inr h1 =>
            have hj : 1 ≤ j := by omega
            rw [List.range_succ, List.filter_append, ih hj]
            have hfalse : effectRunsAfterRender j = false := by
              cases j with
              | zero => omega
              | succ i => simp [effectRunsAfterRender, effectDepsAt]
            simp [hfalse]
  obtain ⟨m1, rfl⟩ : ∃ m1, m = m1 + 1 := ⟨m - 1, by omega⟩
  obtain ⟨n1, rfl⟩ : ∃ n1, n = n1 + 1 := ⟨n - 1, by omega⟩
  refine ⟨?_, rfl, rfl⟩
  unfold probeRunCount
  rw [hrange (n1 + 1) hn]
  rfl

/-- Witness for C8: with the concrete supported environment and passes 1
and 2, the effect has run exactly once and the mounted content agrees. -/
theorem probe_one_shot_witness :
    probeRunCount 2 = 1 ∧
    hasWebGLState envWebGLOk 1 = hasWebGLState envWebGLOk 2 ∧
    hero3DContent (hasWebGLState envWebGLOk 1)
      = hero3DContent (hasWebGLState envWebGLOk 2) :=
  probe_one_shot envWebGLOk 1 2 (by decide) (by decide)

/-- C9: when the reduced-motion preference is active the scroll-indicator
wheel has no animation applied, whatever the capability outcome; otherwise
it animates with the infinite 1.8 second `wheel` cycle. -/
theorem scroll_indicator_reduced_motion (hasWebGL : Bool) :
    scrollIndicatorWheelAnimation hasWebGL true = none ∧
    scrollIndicatorWheelAnimation hasWebGL false
      = some { keyframesName := "wheel"
               durationSeconds := 9 / 5
               iterationCountInfinite := true } :=
  ⟨rfl, rfl⟩

/-- C10: when a ref is still null, the corresponding per-frame callback
leaves the ref content unchanged and returns without throwing; the rotation
update is applied exactly when the ref is non-null. -/
theorem useFrame_null_ref_safe (d r : ℚ) :
    planetUseFrame d none = Except.ok none ∧
    moonOrbitUseFrame d none = Except.ok none ∧
    planetUseFrame d (some r) = Except.ok (some (r + d * PLANET_SPIN_FACTOR)) ∧
    moonOrbitUseFrame d (some r) = Except.ok (some (r + d * MOON_ORBIT_FACTOR)) :=
  ⟨rfl, rfl, rfl, rfl⟩

end Portfolio
